import Mathlib

/-!
Shallow embedding of tools/profiler/core/platform-win32.cpp: the Windows
sampler thread of the Gecko profiler.  OS calls (SuspendThread,
GetThreadContext, ResumeThread, timeBeginPeriod, Sleep) and external
collaborators (the sample buffer, the global profiler state gPS) are modelled
by explicit outcome parameters and by an event trace listing the calls the
code issues, in program order.  Register values and handles are natural
numbers; the fractional sampling interval is a rational.
-/

/-- Build architecture selected by conditional compilation
(GP_ARCH_amd64 versus GP_ARCH_x86). -/
inductive Arch : Type
| amd64 : Arch
| x86 : Arch
deriving DecidableEq

/-- The CONTEXT register blob.  One structure carries the fields of both
architectures; each extraction path reads only the fields of its target. -/
structure CONTEXT : Type where
  Rip : Nat
  Rsp : Nat
  Rbp : Nat
  Eip : Nat
  Esp : Nat
  Ebp : Nat
deriving DecidableEq

/-- PlatformData: profiled_thread_ is the handle OpenThread returned, none
modelling a null HANDLE (acquisition failed). -/
structure PlatformData : Type where
  profiled_thread : Option Nat
deriving DecidableEq

/-- GetThreadHandle returns the stored handle. -/
def GetThreadHandle (aData : PlatformData) : Option Nat :=
  aData.profiled_thread

/-- The fields of ThreadInfo that SamplerThread reads. -/
structure ThreadInfo : Type where
  threadId : Nat
  hasProfile : Bool
  isPendingDelete : Bool
  /-- Stack()->CanDuplicateLastSampleDueToSleep() -/
  canDuplicateLastSampleDueToSleep : Bool
  platformData : PlatformData
deriving DecidableEq

/-- Outcomes of the external calls made while handling one thread in one
pass: the buffer duplicate call and the three OS thread calls. -/
structure OsOutcome : Type where
  /-- result of Buffer::DuplicateLastSample -/
  duplicateOk : Bool
  /-- SuspendThread returned kSuspendFailed -/
  suspendFails : Bool
  /-- GetThreadContext returned 0 -/
  getContextFails : Bool
  /-- the register blob a successful GetThreadContext fills in -/
  context : CONTEXT
  /-- mozilla::TimeStamp::Now() -/
  now : Nat
deriving DecidableEq

/-- One registered thread together with the external outcomes it meets in
the current pass. -/
structure ThreadCase : Type where
  info : ThreadInfo
  os : OsOutcome
deriving DecidableEq

/-- The TickSample fields the sampler fills in before calling Tick. -/
structure TickSample : Type where
  timestamp : Nat
  threadId : Nat
  rssMemory : Nat
  ussMemory : Nat
  pc : Nat
  sp : Nat
  fp : Nat
deriving DecidableEq

/-- The calls the sampler issues, in program order. -/
inductive Event : Type
| lockAcquire : Event
| lockRelease : Event
| deleteExpiredStoredMarkers : Event
| duplicateLastSample (tid : Nat) (startTime : Nat) (ok : Bool) : Event
| updateThreadResponsiveness (tid : Nat) : Event
| suspendOk (tid : Nat) : Event
| suspendFail (tid : Nat) : Event
| resume (tid : Nat) : Event
| tick (s : TickSample) : Event
| sleep (ms : Int) : Event
deriving DecidableEq

/-- Register extraction of SamplerThread::SampleContext: Rip/Rsp/Rbp under
GP_ARCH_amd64, Eip/Esp/Ebp otherwise. -/
def sampleContextExtract : Arch → CONTEXT → Nat × Nat × Nat
| Arch.amd64, c => (c.Rip, c.Rsp, c.Rbp)
| Arch.x86, c => (c.Eip, c.Esp, c.Ebp)

/-- Register extraction of TickSample::PopulateContext: Rip/Rsp/Rbp under
GP_ARCH_amd64, Eip/Esp/Ebp under GP_ARCH_x86. -/
def populateContextExtract : Arch → CONTEXT → Nat × Nat × Nat
| Arch.amd64, c => (c.Rip, c.Rsp, c.Rbp)
| Arch.x86, c => (c.Eip, c.Esp, c.Ebp)

/-- SamplerThread::SampleContext for one thread: returns the trace of calls
it issues.  featureMemory is gPS->FeatureMemory, residentFast the value
nsMemoryReporterManager::ResidentFast() would return. -/
def SampleContext (featureMemory : Bool) (residentFast : Nat) (arch : Arch)
    (info : ThreadInfo) (os : OsOutcome) (isFirstProfiledThread : Bool) :
    List Event :=
  match GetThreadHandle info.platformData with
  | none => []
  | some _ =>
    let rssMemory : Nat :=
      if isFirstProfiledThread && featureMemory then residentFast else 0
    if os.suspendFails then
      [Event.suspendFail info.threadId]
    else
      Event.suspendOk info.threadId ::
      if os.getContextFails then
        [Event.resume info.threadId]
      else
        let regs := sampleContextExtract arch os.context
        [Event.tick
          { timestamp := os.now
            threadId := info.threadId
            rssMemory := rssMemory
            ussMemory := 0
            pc := regs.1
            sp := regs.2.1
            fp := regs.2.2 },
         Event.resume info.threadId]

/-- The body of the for loop in SamplerThread::Run for one thread: the trace
it emits and the value of isFirstProfiledThread afterwards. -/
def sampleOne (featureMemory : Bool) (residentFast : Nat) (arch : Arch)
    (startTime : Nat) (t : ThreadCase) (isFirstProfiledThread : Bool) :
    List Event × Bool :=
  if !t.info.hasProfile || t.info.isPendingDelete then
    ([], isFirstProfiledThread)
  else if t.info.canDuplicateLastSampleDueToSleep then
    if t.os.duplicateOk then
      ([Event.duplicateLastSample t.info.threadId startTime true],
       isFirstProfiledThread)
    else
      (Event.duplicateLastSample t.info.threadId startTime false ::
       Event.updateThreadResponsiveness t.info.threadId ::
       SampleContext featureMemory residentFast arch t.info t.os
         isFirstProfiledThread,
       false)
  else
    (Event.updateThreadResponsiveness t.info.threadId ::
     SampleContext featureMemory residentFast arch t.info t.os
       isFirstProfiledThread,
     false)

/-- The for loop over the registered threads, threading
isFirstProfiledThread through. -/
def sampleLoop (featureMemory : Bool) (residentFast : Nat) (arch : Arch)
    (startTime : Nat) : List ThreadCase → Bool → List Event
| [], _ => []
| t :: ts, isFirst =>
  let r := sampleOne featureMemory residentFast arch startTime t isFirst
  r.1 ++ sampleLoop featureMemory residentFast arch startTime ts r.2

/-- Trace counting helpers. -/
def isResumeFor (tid : Nat) : Event → Bool
| Event.resume t => t == tid
| _ => false

def isSuspendOkFor (tid : Nat) : Event → Bool
| Event.suspendOk t => t == tid
| _ => false

def isTickFor (tid : Nat) : Event → Bool
| Event.tick s => s.threadId == tid
| _ => false

def isMemTick : Event → Bool
| Event.tick s => s.rssMemory != 0
| _ => false

def numResumesFor (tid : Nat) (evs : List Event) : Nat :=
  (evs.filter (isResumeFor tid)).length

def numSuspendsFor (tid : Nat) (evs : List Event) : Nat :=
  (evs.filter (isSuspendOkFor tid)).length

def numTicksFor (tid : Nat) (evs : List Event) : Nat :=
  (evs.filter (isTickFor tid)).length

def numMemTicks (evs : List Event) : Nat :=
  (evs.filter isMemTick).length

/-- The SamplerThread fields the claims concern: the captured activity
generation and the rounded sampling interval. -/
structure SamplerThread : Type where
  mActivityGeneration : Nat
  mInterval : Int
deriving DecidableEq

/-- The member initializers of the SamplerThread constructor:
mInterval = std::max(1, int(floor(aInterval + 0.5))), the fractional
interval modelled as a rational. -/
def mkSamplerThread (aActivityGeneration : Nat) (aInterval : ℚ) :
    SamplerThread :=
  { mActivityGeneration := aActivityGeneration
    mInterval := max 1 (Int.floor (aInterval + 1/2)) }

/-- Calls into the multimedia timer API. -/
inductive TimerEvent : Type
| timeBeginPeriod (ms : Int) : TimerEvent
| timeEndPeriod (ms : Int) : TimerEvent
deriving DecidableEq

/-- The timer-resolution request of the SamplerThread constructor:
timeBeginPeriod(mInterval) iff mInterval < 10. -/
def ctorTimerEvents (st : SamplerThread) : List TimerEvent :=
  if st.mInterval < 10 then [TimerEvent.timeBeginPeriod st.mInterval] else []

/-- SamplerThread::Stop: timeEndPeriod(mInterval) iff mInterval < 10. -/
def SamplerThread.Stop (st : SamplerThread) : List TimerEvent :=
  if st.mInterval < 10 then [TimerEvent.timeEndPeriod st.mInterval] else []

/-- The global state one pass of SamplerThread::Run observes at its lock
acquisition, together with the outcomes of the external calls the pass
makes. -/
structure PassInput : Type where
  activityGeneration : Nat
  isPaused : Bool
  startTime : Nat
  featureMemory : Bool
  residentFast : Nat
  threads : List ThreadCase
deriving DecidableEq

/-- One pass body under the lock: buffer maintenance, then the thread loop
unless paused. -/
def passBody (arch : Arch) (p : PassInput) : List Event :=
  Event.deleteExpiredStoredMarkers ::
  if p.isPaused then []
  else sampleLoop p.featureMemory p.residentFast arch p.startTime p.threads
         true

/-- A completed pass: lock, body, unlock, then Sleep(mInterval) outside the
lock. -/
def fullPass (arch : Arch) (st : SamplerThread) (p : PassInput) :
    List Event :=
  Event.lockAcquire :: passBody arch p ++
    [Event.lockRelease, Event.sleep st.mInterval]

/-- SamplerThread::Run over a finite list of successive global states, one
observed per lock acquisition (a finite cut of the infinite loop).  A pass
whose observed activity generation differs from the captured one releases
the lock and returns. -/
def SamplerThread.Run (arch : Arch) (st : SamplerThread) :
    List PassInput → List Event
| [] => []
| p :: rest =>
  if p.activityGeneration ≠ st.mActivityGeneration then
    [Event.lockAcquire, Event.lockRelease]
  else
    fullPass arch st p ++ SamplerThread.Run arch st rest

/-- The for loop leaves this thread without any OS call on it: either it is
ineligible (no profile, or pending delete), or the duplicate-due-to-sleep
path succeeds. -/
def skippedNoSample (t : ThreadCase) : Bool :=
  (!t.info.hasProfile || t.info.isPendingDelete) ||
  (t.info.canDuplicateLastSampleDueToSleep && t.os.duplicateOk)

/-- The thread goes through the full sampling path and every step of it
succeeds: eligible, not duplicate-skipped, non-null handle, suspend and
context read succeed. -/
def fullySampled (t : ThreadCase) : Bool :=
  t.info.hasProfile && !t.info.isPendingDelete &&
  !(t.info.canDuplicateLastSampleDueToSleep && t.os.duplicateOk) &&
  (GetThreadHandle t.info.platformData).isSome &&
  !t.os.suspendFails && !t.os.getContextFails

/-- An eligible thread whose suspend call fails. -/
def c3Thread : ThreadCase :=
  { info := ⟨7, true, false, false, ⟨some 3⟩⟩
    os := ⟨false, true, false, ⟨0, 0, 0, 0, 0, 0⟩, 0⟩ }

/-- An eligible thread whose full sampling path succeeds. -/
def c3GoodThread : ThreadCase :=
  { info := ⟨9, true, false, false, ⟨some 4⟩⟩
    os := ⟨false, false, false, ⟨1, 2, 3, 4, 5, 6⟩, 0⟩ }

/-- An eligible thread whose duplicate-due-to-sleep predicate holds and
whose buffer duplicate call succeeds. -/
def c4Thread : ThreadCase :=
  { info := ⟨11, true, false, true, ⟨some 5⟩⟩
    os := ⟨true, false, false, ⟨0, 0, 0, 0, 0, 0⟩, 0⟩ }

/-- An eligible thread whose suspend call fails, for the C5 witness. -/
def c5FailThread : ThreadCase :=
  { info := ⟨21, true, false, false, ⟨some 6⟩⟩
    os := ⟨false, true, false, ⟨0, 0, 0, 0, 0, 0⟩, 0⟩ }

/-- An eligible thread whose full path succeeds, for the C5 witness. -/
def c5GoodThread : ThreadCase :=
  { info := ⟨22, true, false, false, ⟨some 7⟩⟩
    os := ⟨false, false, false, ⟨1, 1, 1, 1, 1, 1⟩, 0⟩ }

/-- An eligible thread whose context read fails, for the C6 witness. -/
def c6Thread : ThreadCase :=
  { info := ⟨31, true, false, false, ⟨some 8⟩⟩
    os := ⟨false, false, true, ⟨0, 0, 0, 0, 0, 0⟩, 0⟩ }

/-- A registered thread whose handle acquisition failed. -/
def c9Thread : ThreadCase :=
  { info := ⟨41, true, false, false, ⟨none⟩⟩
    os := ⟨false, false, false, ⟨0, 0, 0, 0, 0, 0⟩, 0⟩ }

/-- C10: on each supported build architecture the self-sampling extraction
of TickSample.PopulateContext and the suspended-thread extraction of
SamplerThread.SampleContext read the same context fields (Rip/Rsp/Rbp on
amd64, Eip/Esp/Ebp on x86), so they are equal as functions from a register
blob to the (pc, sp, fp) triple. -/
theorem extract_agree (arch : Arch) (c : CONTEXT) :
    populateContextExtract arch c = sampleContextExtract arch c := by
  cases arch <;> rfl

/-- C1: in SamplerThread.SampleContext, whenever the suspend call succeeds
(the handle is non-null and SuspendThread does not fail), the trace contains
exactly one successful suspend and exactly one resume for the target thread,
on every exit path, in particular both when the register-context read
succeeds and when it fails. -/
theorem suspend_resume_paired (featureMemory : Bool) (residentFast : Nat)
    (arch : Arch) (info : ThreadInfo) (os : OsOutcome) (isFirst : Bool)
    (hHandle : GetThreadHandle info.platformData ≠ none)
    (hSuspend : os.suspendFails = false) :
    numSuspendsFor info.threadId
      (SampleContext featureMemory residentFast arch info os isFirst) = 1 ∧
    numResumesFor info.threadId
      (SampleContext featureMemory residentFast arch info os isFirst) = 1 := by
  obtain ⟨h, hh⟩ := Option.ne_none_iff_exists'.mp hHandle
  cases hread : os.getContextFails <;>
    simp [SampleContext, hh, hSuspend, hread, numSuspendsFor, numResumesFor,
      isSuspendOkFor, isResumeFor]

/-- Witness for suspend_resume_paired at a concrete input with a failing
context read. -/
theorem suspend_resume_paired_witness :
    numSuspendsFor 7
      (SampleContext true 5 Arch.amd64
        { threadId := 7, hasProfile := true, isPendingDelete := false,
          canDuplicateLastSampleDueToSleep := false,
          platformData := { profiled_thread := some 3 } }
        { duplicateOk := false, suspendFails := false, getContextFails := true,
          context := ⟨0, 0, 0, 0, 0, 0⟩, now := 0 }
        true) = 1 ∧
    numResumesFor 7
      (SampleContext true 5 Arch.amd64
        { threadId := 7, hasProfile := true, isPendingDelete := false,
          canDuplicateLastSampleDueToSleep := false,
          platformData := { profiled_thread := some 3 } }
        { duplicateOk := false, suspendFails := false, getContextFails := true,
          context := ⟨0, 0, 0, 0, 0, 0⟩, now := 0 }
        true) = 1 :=
  suspend_resume_paired true 5 Arch.amd64
    { threadId := 7, hasProfile := true, isPendingDelete := false,
      canDuplicateLastSampleDueToSleep := false,
      platformData := { profiled_thread := some 3 } }
    { duplicateOk := false, suspendFails := false, getContextFails := true,
      context := ⟨0, 0, 0, 0, 0, 0⟩, now := 0 }
    true (by decide) rfl

/-- C2: passes that observe the captured activity generation complete in
full (maintenance, thread loop, unlock, sleep) and the loop continues, and
the first pass that observes a different generation contributes only its
lock acquisition and release: no buffer maintenance, no thread iteration,
no sleep, and no later pass at all.  The mismatch is the only way the loop
ends. -/
theorem run_stops_on_generation_mismatch (arch : Arch) (st : SamplerThread)
    (pre : List PassInput) (bad : PassInput) (post : List PassInput)
    (hpre : ∀ q ∈ pre, q.activityGeneration = st.mActivityGeneration)
    (hbad : bad.activityGeneration ≠ st.mActivityGeneration) :
    SamplerThread.Run arch st (pre ++ bad :: post) =
      (pre.map (fullPass arch st)).join ++
        [Event.lockAcquire, Event.lockRelease] := by
  induction pre with
  | nil => simp [SamplerThread.Run, hbad]
  | cons q qs ih =>
      have hq := hpre q (by simp)
      have hqs : ∀ r ∈ qs, r.activityGeneration = st.mActivityGeneration :=
        fun r hr => hpre r (by simp [hr])
      simp [SamplerThread.Run, hq, ih hqs]

/-- Witness for run_stops_on_generation_mismatch: one matching paused pass,
then a mismatching one; the trace is the full first pass followed by only
lock acquire and release. -/
theorem run_stops_on_generation_mismatch_witness :
    SamplerThread.Run Arch.amd64 ⟨1, 5⟩
      [⟨1, true, 0, false, 0, []⟩, ⟨2, true, 0, false, 0, []⟩,
       ⟨1, true, 0, false, 0, []⟩] =
      ([(⟨1, true, 0, false, 0, []⟩ : PassInput)].map
          (fullPass Arch.amd64 ⟨1, 5⟩)).join ++
        [Event.lockAcquire, Event.lockRelease] :=
  run_stops_on_generation_mismatch Arch.amd64 ⟨1, 5⟩
    [⟨1, true, 0, false, 0, []⟩] ⟨2, true, 0, false, 0, []⟩
    [⟨1, true, 0, false, 0, []⟩] (by decide) (by decide)

/-- C7: for every desired interval, the constructor issues a
timeBeginPeriod request iff the rounded interval is below 10 ms, Stop
issues timeEndPeriod under exactly the same condition with the same
argument, and the two call lists always have equal length (net zero change
to the process-wide timer state). -/
theorem timer_request_revert_paired (g : Nat) (a : ℚ) :
    (ctorTimerEvents (mkSamplerThread g a)).length =
      ((mkSamplerThread g a).Stop).length ∧
    ((∃ x, TimerEvent.timeBeginPeriod x ∈ ctorTimerEvents
        (mkSamplerThread g a)) ↔ (mkSamplerThread g a).mInterval < 10) ∧
    (∀ x : Int, TimerEvent.timeBeginPeriod x ∈ ctorTimerEvents
        (mkSamplerThread g a) ↔
      TimerEvent.timeEndPeriod x ∈ (mkSamplerThread g a).Stop) := by
  by_cases h : (mkSamplerThread g a).mInterval < 10 <;>
    simp [ctorTimerEvents, SamplerThread.Stop, h]

/-- SampleContext never issues a Sleep call. -/
theorem sleep_not_mem_sampleContext (fm : Bool) (rf : Nat) (arch : Arch)
    (info : ThreadInfo) (os : OsOutcome) (b : Bool) (x : Int) :
    Event.sleep x ∉ SampleContext fm rf arch info os b := by
  cases hh : GetThreadHandle info.platformData with
  | none => simp [SampleContext, hh]
  | some v =>
    cases hs : os.suspendFails <;> cases hc : os.getContextFails <;>
      simp [SampleContext, hh, hs, hc]

/-- One iteration of the thread loop never issues a Sleep call. -/
theorem sleep_not_mem_sampleOne (fm : Bool) (rf : Nat) (arch : Arch)
    (stt : Nat) (t : ThreadCase) (b : Bool) (x : Int) :
    Event.sleep x ∉ (sampleOne fm rf arch stt t b).1 := by
  unfold sampleOne
  split
  · simp
  · split
    · split
      · simp
      · simp [sleep_not_mem_sampleContext]
    · simp [sleep_not_mem_sampleContext]

/-- The thread loop never issues a Sleep call. -/
theorem sleep_not_mem_sampleLoop (fm : Bool) (rf : Nat) (arch : Arch)
    (stt : Nat) (ts : List ThreadCase) (b : Bool) (x : Int) :
    Event.sleep x ∉ sampleLoop fm rf arch stt ts b := by
  induction ts generalizing b with
  | nil => simp [sampleLoop]
  | cons t ts ih => simp [sampleLoop, sleep_not_mem_sampleOne, ih]

/-- The locked pass body never issues a Sleep call. -/
theorem sleep_not_mem_passBody (arch : Arch) (p : PassInput) (x : Int) :
    Event.sleep x ∉ passBody arch p := by
  unfold passBody
  split <;> simp [sleep_not_mem_sampleLoop]

/-- Every Sleep the sampler loop issues sleeps for exactly mInterval. -/
theorem sleep_mem_run (arch : Arch) (st : SamplerThread)
    (passes : List PassInput) (x : Int)
    (h : Event.sleep x ∈ SamplerThread.Run arch st passes) :
    x = st.mInterval := by
  induction passes with
  | nil => simp [SamplerThread.Run] at h
  | cons p rest ih =>
    rw [SamplerThread.Run] at h
    split at h
    · simp at h
    · rw [List.mem_append] at h
      rcases h with h | h
      · simpa [fullPass, sleep_not_mem_passBody] using h
      · exact ih h

/-- C8: the stored interval is the argument rounded to a nearest integer and
clamped to at least 1, and that stored value is the one used, unchanged, by
every Sleep call of the run loop and by both timer-resolution calls. -/
theorem interval_rounded_clamped (g : Nat) (a : ℚ) :
    1 ≤ (mkSamplerThread g a).mInterval ∧
    (∃ r : ℤ, |(r : ℚ) - a| ≤ 1/2 ∧
      (mkSamplerThread g a).mInterval = max 1 r) ∧
    (∀ (arch : Arch) (passes : List PassInput) (x : Int),
      Event.sleep x ∈ SamplerThread.Run arch (mkSamplerThread g a) passes →
        x = (mkSamplerThread g a).mInterval) ∧
    (∀ x : Int, TimerEvent.timeBeginPeriod x ∈
        ctorTimerEvents (mkSamplerThread g a) →
      x = (mkSamplerThread g a).mInterval) ∧
    (∀ x : Int, TimerEvent.timeEndPeriod x ∈ (mkSamplerThread g a).Stop →
      x = (mkSamplerThread g a).mInterval) := by
  refine ⟨le_max_left 1 _, ⟨Int.floor (a + 1/2), ?_, rfl⟩,
    fun arch passes x h => sleep_mem_run arch _ passes x h, ?_, ?_⟩
  · rw [abs_le]
    constructor
    · have h := Int.lt_floor_add_one (a + 1/2)
      linarith
    · have h := Int.floor_le (a + 1/2)
      linarith
  · intro x hx
    rw [ctorTimerEvents] at hx
    split at hx <;> simp_all
  · intro x hx
    rw [SamplerThread.Stop] at hx
    split at hx <;> simp_all

/-- Witness for interval_rounded_clamped: the interval 9/2 ms rounds to 5,
and the Sleep call of a completed pass sleeps exactly 5 ms. -/
theorem interval_rounded_clamped_witness :
    (5 : Int) = (mkSamplerThread 0 (9/2)).mInterval := by
  have hfl : Int.floor ((9 : ℚ)/2 + 1/2) = 5 := by
    have h5 : ((9 : ℚ)/2 + 1/2) = ((5 : ℤ) : ℚ) := by push_cast; norm_num
    rw [h5, Int.floor_intCast]
  have hmk : mkSamplerThread 0 (9/2) = ⟨0, 5⟩ := by
    simp only [mkSamplerThread, hfl]
    decide
  exact (interval_rounded_clamped 0 (9/2)).2.2.1 Arch.amd64
    [⟨0, true, 0, false, 0, []⟩] 5 (by rw [hmk]; decide)

/-- Filter counts distribute over trace concatenation. -/
theorem numMemTicks_append (a b : List Event) :
    numMemTicks (a ++ b) = numMemTicks a + numMemTicks b := by
  simp [numMemTicks, List.filter_append]

theorem numTicksFor_append (tid : Nat) (a b : List Event) :
    numTicksFor tid (a ++ b) = numTicksFor tid a + numTicksFor tid b := by
  simp [numTicksFor, List.filter_append]

theorem numResumesFor_append (tid : Nat) (a b : List Event) :
    numResumesFor tid (a ++ b) =
      numResumesFor tid a + numResumesFor tid b := by
  simp [numResumesFor, List.filter_append]

/-- With the memory feature disabled, SampleContext never emits a sample
with a non-zero rssMemory field. -/
theorem sampleContext_memTicks_fmFalse (rf : Nat) (arch : Arch)
    (info : ThreadInfo) (os : OsOutcome) (b : Bool) :
    numMemTicks (SampleContext false rf arch info os b) = 0 := by
  cases hh : GetThreadHandle info.platformData with
  | none => simp [SampleContext, hh, numMemTicks]
  | some v =>
    cases hs : os.suspendFails <;> cases hc : os.getContextFails <;>
      simp [SampleContext, hh, hs, hc, numMemTicks, isMemTick]

/-- Past the first profiled thread, SampleContext never emits a sample with
a non-zero rssMemory field. -/
theorem sampleContext_memTicks_bFalse (fm : Bool) (rf : Nat) (arch : Arch)
    (info : ThreadInfo) (os : OsOutcome) :
    numMemTicks (SampleContext fm rf arch info os false) = 0 := by
  cases hh : GetThreadHandle info.platformData with
  | none => simp [SampleContext, hh, numMemTicks]
  | some v =>
    cases hs : os.suspendFails <;> cases hc : os.getContextFails <;>
      simp [SampleContext, hh, hs, hc, numMemTicks, isMemTick]

/-- One SampleContext call emits at most one sample with a non-zero
rssMemory field. -/
theorem sampleContext_memTicks_le_one (fm : Bool) (rf : Nat) (arch : Arch)
    (info : ThreadInfo) (os : OsOutcome) (b : Bool) :
    numMemTicks (SampleContext fm rf arch info os b) ≤ 1 := by
  cases hh : GetThreadHandle info.platformData with
  | none => simp [SampleContext, hh, numMemTicks]
  | some v =>
    cases hs : os.suspendFails <;> cases hc : os.getContextFails <;>
      simp only [SampleContext, hh, hs, hc, numMemTicks] <;>
      simp [isMemTick, List.filter] <;> split <;> simp

/-- Reading off the conjuncts of fullySampled. -/
theorem fullySampled_fields (t : ThreadCase) (h : fullySampled t = true) :
    t.info.hasProfile = true ∧ t.info.isPendingDelete = false ∧
    (GetThreadHandle t.info.platformData).isSome = true ∧
    t.os.suspendFails = false ∧ t.os.getContextFails = false ∧
    skippedNoSample t = false := by
  cases hp : t.info.hasProfile <;> cases hd : t.info.isPendingDelete <;>
    cases hcd : t.info.canDuplicateLastSampleDueToSleep <;>
    cases ho : t.os.duplicateOk <;> cases hs : t.os.suspendFails <;>
    cases hc : t.os.getContextFails <;>
    simp_all [fullySampled, skippedNoSample]

/-- A skipped thread (ineligible, or duplicate-due-to-sleep succeeded)
emits no sample at all and leaves isFirstProfiledThread unchanged. -/
theorem sampleOne_skipped (fm : Bool) (rf : Nat) (arch : Arch) (stt : Nat)
    (t : ThreadCase) (b : Bool) (h : skippedNoSample t = true) :
    (sampleOne fm rf arch stt t b).2 = b ∧
    numMemTicks (sampleOne fm rf arch stt t b).1 = 0 ∧
    (∀ tid, numTicksFor tid (sampleOne fm rf arch stt t b).1 = 0) := by
  cases hp : t.info.hasProfile <;> cases hd : t.info.isPendingDelete <;>
    cases hcd : t.info.canDuplicateLastSampleDueToSleep <;>
    cases ho : t.os.duplicateOk <;>
    simp_all [skippedNoSample, sampleOne, numMemTicks, numTicksFor,
      isMemTick, isTickFor]

/-- A non-skipped thread clears isFirstProfiledThread and its
memory-carrying samples are exactly those of its SampleContext call. -/
theorem sampleOne_not_skipped (fm : Bool) (rf : Nat) (arch : Arch)
    (stt : Nat) (t : ThreadCase) (b : Bool)
    (h : skippedNoSample t = false) :
    (sampleOne fm rf arch stt t b).2 = false ∧
    numMemTicks (sampleOne fm rf arch stt t b).1 =
      numMemTicks (SampleContext fm rf arch t.info t.os b) := by
  cases hp : t.info.hasProfile <;> cases hd : t.info.isPendingDelete <;>
    cases hcd : t.info.canDuplicateLastSampleDueToSleep <;>
    cases ho : t.os.duplicateOk <;>
    simp_all [skippedNoSample, sampleOne, numMemTicks, isMemTick]

/-- Once isFirstProfiledThread is false, the rest of the loop emits no
memory-carrying sample. -/
theorem sampleLoop_memTicks_bFalse (fm : Bool) (rf : Nat) (arch : Arch)
    (stt : Nat) (ts : List ThreadCase) :
    numMemTicks (sampleLoop fm rf arch stt ts false) = 0 := by
  induction ts with
  | nil => simp [sampleLoop, numMemTicks]
  | cons t ts ih =>
    by_cases h : skippedNoSample t = true
    · have h2 := sampleOne_skipped fm rf arch stt t false h
      simp [sampleLoop, numMemTicks_append, h2.1, h2.2.1, ih]
    · have h2 := sampleOne_not_skipped fm rf arch stt t false
        (by simpa using h)
      simp [sampleLoop, numMemTicks_append, h2.1, h2.2, ih,
        sampleContext_memTicks_bFalse]

/-- With the memory feature disabled, a whole pass emits no memory-carrying
sample, whatever the first-thread flag. -/
theorem sampleLoop_memTicks_fmFalse (rf : Nat) (arch : Arch) (stt : Nat)
    (ts : List ThreadCase) (b : Bool) :
    numMemTicks (sampleLoop false rf arch stt ts b) = 0 := by
  induction ts generalizing b with
  | nil => simp [sampleLoop, numMemTicks]
  | cons t ts ih =>
    by_cases h : skippedNoSample t = true
    · have h2 := sampleOne_skipped false rf arch stt t b h
      simp [sampleLoop, numMemTicks_append, h2.1, h2.2.1, ih]
    · have h2 := sampleOne_not_skipped false rf arch stt t b
        (by simpa using h)
      simp [sampleLoop, numMemTicks_append, h2.1, h2.2, ih,
        sampleContext_memTicks_fmFalse]

/-- A pass emits at most one memory-carrying sample. -/
theorem sampleLoop_memTicks_le_one (fm : Bool) (rf : Nat) (arch : Arch)
    (stt : Nat) (ts : List ThreadCase) (b : Bool) :
    numMemTicks (sampleLoop fm rf arch stt ts b) ≤ 1 := by
  induction ts generalizing b with
  | nil => simp [sampleLoop, numMemTicks]
  | cons t ts ih =>
    by_cases h : skippedNoSample t = true
    · have h2 := sampleOne_skipped fm rf arch stt t b h
      simp only [sampleLoop, numMemTicks_append, h2.1, h2.2.1]
      simpa using ih b
    · have h2 := sampleOne_not_skipped fm rf arch stt t b (by simpa using h)
      have h3 := sampleContext_memTicks_le_one fm rf arch t.info t.os b
      simp only [sampleLoop, numMemTicks_append, h2.1, h2.2,
        sampleLoop_memTicks_bFalse]
      omega

/-- A fully successful SampleContext call emits exactly one sample, and it
carries the owning thread id. -/
theorem sampleContext_success_tickFor (fm : Bool) (rf : Nat) (arch : Arch)
    (info : ThreadInfo) (os : OsOutcome) (b : Bool) (v : Nat)
    (hv : GetThreadHandle info.platformData = some v)
    (hs : os.suspendFails = false) (hc : os.getContextFails = false) :
    numTicksFor info.threadId (SampleContext fm rf arch info os b) = 1 := by
  simp [SampleContext, hv, hs, hc, numTicksFor, isTickFor]

/-- A first-thread SampleContext call that fully succeeds with the memory
feature on and a non-zero resident value emits exactly one memory-carrying
sample. -/
theorem sampleContext_memTick_first (rf : Nat) (arch : Arch)
    (info : ThreadInfo) (os : OsOutcome) (v : Nat)
    (hv : GetThreadHandle info.platformData = some v)
    (hs : os.suspendFails = false) (hc : os.getContextFails = false)
    (hrf : 0 < rf) :
    numMemTicks (SampleContext true rf arch info os true) = 1 := by
  have hne : rf ≠ 0 := Nat.pos_iff_ne_zero.mp hrf
  simp [SampleContext, hv, hs, hc, numMemTicks, isMemTick, hne]

/-- A fully sampled first thread contributes exactly one memory-carrying
sample and clears isFirstProfiledThread. -/
theorem sampleOne_fullySampled_memTick (rf : Nat) (arch : Arch) (stt : Nat)
    (t : ThreadCase) (hf : fullySampled t = true) (hrf : 0 < rf) :
    (sampleOne true rf arch stt t true).2 = false ∧
    numMemTicks (sampleOne true rf arch stt t true).1 = 1 := by
  obtain ⟨hp, hd, hss, hs, hc, hns⟩ := fullySampled_fields t hf
  obtain ⟨v, hv⟩ := Option.isSome_iff_exists.mp hss
  have h2 := sampleOne_not_skipped true rf arch stt t true hns
  exact ⟨h2.1, by
    rw [h2.2]
    exact sampleContext_memTick_first rf arch t.info t.os v hv hs hc hrf⟩

/-- A fully sampled thread contributes exactly one sample bearing its id,
whatever the first-thread flag. -/
theorem sampleOne_fullySampled_tickFor (fm : Bool) (rf : Nat) (arch : Arch)
    (stt : Nat) (u : ThreadCase) (b : Bool) (hf : fullySampled u = true) :
    numTicksFor u.info.threadId (sampleOne fm rf arch stt u b).1 = 1 := by
  obtain ⟨hp, hd, hss, hs, hc, hns⟩ := fullySampled_fields u hf
  obtain ⟨v, hv⟩ := Option.isSome_iff_exists.mp hss
  have h1 := sampleContext_success_tickFor fm rf arch u.info u.os b v hv hs hc
  cases hcd : u.info.canDuplicateLastSampleDueToSleep
  · simpa [sampleOne, hp, hd, hcd, numTicksFor, isTickFor] using h1
  · have ho : u.os.duplicateOk = false := by
      simp_all [skippedNoSample]
    simpa [sampleOne, hp, hd, hcd, ho, numTicksFor, isTickFor] using h1

/-- A fully sampled member of the thread list is sampled by the loop. -/
theorem sampleLoop_fullySampled_mem (fm : Bool) (rf : Nat) (arch : Arch)
    (stt : Nat) (ts : List ThreadCase) (b : Bool) (u : ThreadCase)
    (hu : u ∈ ts) (hf : fullySampled u = true) :
    1 ≤ numTicksFor u.info.threadId (sampleLoop fm rf arch stt ts b) := by
  induction ts generalizing b with
  | nil => simp at hu
  | cons t ts ih =>
    rcases List.mem_cons.mp hu with rfl | hmem
    · have h1 := sampleOne_fullySampled_tickFor fm rf arch stt u b hf
      simp [sampleLoop, numTicksFor_append, h1]
    · have h2 := ih ((sampleOne fm rf arch stt t b).2) hmem
      simp only [sampleLoop, numTicksFor_append]
      omega

/-- Reading off the conjuncts of a false skippedNoSample. -/
theorem skippedNoSample_false_fields (t : ThreadCase)
    (h : skippedNoSample t = false) :
    t.info.hasProfile = true ∧ t.info.isPendingDelete = false ∧
    (t.info.canDuplicateLastSampleDueToSleep && t.os.duplicateOk) = false := by
  cases hp : t.info.hasProfile <;> cases hd : t.info.isPendingDelete <;>
    cases hcd : t.info.canDuplicateLastSampleDueToSleep <;>
    cases ho : t.os.duplicateOk <;> simp_all [skippedNoSample]

/-- A non-skipped thread with a non-null handle whose suspend and context
read succeed is fully sampled. -/
theorem fullySampled_of_parts (t : ThreadCase)
    (hns : skippedNoSample t = false)
    (hss : (GetThreadHandle t.info.platformData).isSome = true)
    (hsf : t.os.suspendFails = false) (hcf : t.os.getContextFails = false) :
    fullySampled t = true := by
  obtain ⟨hp, hd, hcd⟩ := skippedNoSample_false_fields t hns
  simp [fullySampled, hp, hd, hcd, hss, hsf, hcf]

/-- A non-skipped thread that is not fully sampled fails at the handle, at
the suspend, or at the context read. -/
theorem not_fullySampled_cases (t : ThreadCase)
    (hns : skippedNoSample t = false) (hnf : fullySampled t = false) :
    GetThreadHandle t.info.platformData = none ∨
      t.os.suspendFails = true ∨ t.os.getContextFails = true := by
  by_cases hh : GetThreadHandle t.info.platformData = none
  · exact Or.inl hh
  · by_cases hs : t.os.suspendFails = true
    · exact Or.inr (Or.inl hs)
    · by_cases hc : t.os.getContextFails = true
      · exact Or.inr (Or.inr hc)
      · exfalso
        have hss : (GetThreadHandle t.info.platformData).isSome = true :=
          Option.ne_none_iff_isSome.mp hh
        have hful := fullySampled_of_parts t hns hss (by simpa using hs)
          (by simpa using hc)
        simp [hful] at hnf

/-- A SampleContext call that fails at the handle, the suspend, or the
context read, or whose resident-memory reading is zero, emits no
memory-carrying sample even as the first profiled thread. -/
theorem sampleContext_memTick_zero (rf : Nat) (arch : Arch)
    (info : ThreadInfo) (os : OsOutcome)
    (h : GetThreadHandle info.platformData = none ∨
      os.suspendFails = true ∨ os.getContextFails = true ∨ rf = 0) :
    numMemTicks (SampleContext true rf arch info os true) = 0 := by
  cases hh : GetThreadHandle info.platformData with
  | none => simp [SampleContext, hh, numMemTicks]
  | some v =>
    cases hs : os.suspendFails <;> cases hc : os.getContextFails <;>
      simp_all [SampleContext, numMemTicks, isMemTick]

/-- A non-skipped first thread whose path fails somewhere, or whose
resident-memory reading is zero, contributes no memory-carrying sample. -/
theorem sampleOne_memTick_zero_of_not_full (rf : Nat) (arch : Arch)
    (stt : Nat) (t : ThreadCase) (hns : skippedNoSample t = false)
    (h : fullySampled t = false ∨ rf = 0) :
    numMemTicks (sampleOne true rf arch stt t true).1 = 0 := by
  have h2 := sampleOne_not_skipped true rf arch stt t true hns
  rw [h2.2]
  rcases h with hnf | hrf
  · rcases not_fullySampled_cases t hns hnf with hh | hs | hc
    · exact sampleContext_memTick_zero rf arch t.info t.os (Or.inl hh)
    · exact sampleContext_memTick_zero rf arch t.info t.os
        (Or.inr (Or.inl hs))
    · exact sampleContext_memTick_zero rf arch t.info t.os
        (Or.inr (Or.inr (Or.inl hc)))
  · exact sampleContext_memTick_zero rf arch t.info t.os
      (Or.inr (Or.inr (Or.inr hrf)))

/-- A trace containing a sample for some thread counts at least one sample
for its id. -/
theorem tick_mem_numTicksFor (s : TickSample) (evs : List Event)
    (h : Event.tick s ∈ evs) : 1 ≤ numTicksFor s.threadId evs := by
  induction evs with
  | nil => simp at h
  | cons e es ih =>
    rcases List.mem_cons.mp h with rfl | hmem
    · simp [numTicksFor, List.filter_cons, isTickFor]
    · have h1 := ih hmem
      simp only [numTicksFor, List.filter_cons] at h1 ⊢
      split
      · simp
      · simpa using h1

/-- A trace containing a memory-carrying sample counts at least one. -/
theorem memTick_mem_numMemTicks (s : TickSample) (evs : List Event)
    (hmem : Event.tick s ∈ evs) (hrss : s.rssMemory ≠ 0) :
    1 ≤ numMemTicks evs := by
  induction evs with
  | nil => simp at hmem
  | cons e es ih =>
    rcases List.mem_cons.mp hmem with rfl | hm
    · simp [numMemTicks, List.filter_cons, isMemTick, hrss]
    · have h1 := ih hm
      simp only [numMemTicks, List.filter_cons] at h1 ⊢
      split
      · simp
      · simpa using h1

/-- Every sample the loop body emits comes from its SampleContext call. -/
theorem tick_mem_sampleOne (fm : Bool) (rf : Nat) (arch : Arch) (stt : Nat)
    (t : ThreadCase) (b : Bool) (s : TickSample)
    (h : Event.tick s ∈ (sampleOne fm rf arch stt t b).1) :
    Event.tick s ∈ SampleContext fm rf arch t.info t.os b := by
  unfold sampleOne at h
  split at h
  · simp at h
  · split at h
    · split at h
      · simp at h
      · simpa using h
    · simpa using h

/-- Every sample SampleContext emits bears the id of its target thread. -/
theorem tick_mem_sampleContext_threadId (fm : Bool) (rf : Nat) (arch : Arch)
    (info : ThreadInfo) (os : OsOutcome) (b : Bool) (s : TickSample)
    (h : Event.tick s ∈ SampleContext fm rf arch info os b) :
    s.threadId = info.threadId := by
  cases hh : GetThreadHandle info.platformData with
  | none => simp [SampleContext, hh] at h
  | some v =>
    cases hs : os.suspendFails <;> cases hc : os.getContextFails <;>
      simp [SampleContext, hh, hs, hc] at h <;> simp [h]

/-- Decomposition at the first non-skipped thread: skipped threads before
it contribute nothing and keep the first-thread flag; the pass then has
exactly one memory-carrying sample when that thread is fully sampled with a
non-zero resident value and none otherwise, and every memory-carrying
sample of the pass bears that thread id. -/
theorem sampleLoop_first_nonskipped (rf : Nat) (arch : Arch) (stt : Nat)
    (pre : List ThreadCase) (t : ThreadCase) (post : List ThreadCase)
    (hpre : ∀ u ∈ pre, skippedNoSample u = true)
    (hns : skippedNoSample t = false) :
    (numMemTicks (sampleLoop true rf arch stt (pre ++ t :: post) true) =
      if fullySampled t = true ∧ 0 < rf then 1 else 0) ∧
    (∀ s, Event.tick s ∈ sampleLoop true rf arch stt (pre ++ t :: post)
        true →
      s.rssMemory ≠ 0 → s.threadId = t.info.threadId) := by
  induction pre with
  | nil =>
    have hflag := (sampleOne_not_skipped true rf arch stt t true hns).1
    constructor
    · simp only [List.nil_append, sampleLoop, numMemTicks_append, hflag,
        sampleLoop_memTicks_bFalse]
      by_cases hc : fullySampled t = true ∧ 0 < rf
      · rw [if_pos hc]
        have h2 := (sampleOne_fullySampled_memTick rf arch stt t hc.1
          hc.2).2
        omega
      · rw [if_neg hc]
        have hcase : fullySampled t = false ∨ rf = 0 := by
          rcases not_and_or.mp hc with h | h
          · exact Or.inl (by simpa using h)
          · exact Or.inr (by omega)
        have h2 := sampleOne_memTick_zero_of_not_full rf arch stt t hns
          hcase
        omega
    · intro s hmem hrss
      simp only [List.nil_append, sampleLoop, hflag, List.mem_append]
        at hmem
      rcases hmem with hm | hm
      · exact tick_mem_sampleContext_threadId true rf arch t.info t.os true
          s (tick_mem_sampleOne true rf arch stt t true s hm)
      · exfalso
        have h1 := memTick_mem_numMemTicks s _ hm hrss
        rw [sampleLoop_memTicks_bFalse] at h1
        omega
  | cons q qs ih =>
    have hq := hpre q (by simp)
    have hsk := sampleOne_skipped true rf arch stt q true hq
    have ihh := ih (fun u hu => hpre u (by simp [hu]))
    constructor
    · simp only [List.cons_append, sampleLoop, numMemTicks_append, hsk.1,
        hsk.2.1]
      simpa [List.append_eq] using ihh.1
    · intro s hmem hrss
      simp only [List.cons_append, sampleLoop, hsk.1, List.mem_append]
        at hmem
      rcases hmem with hm | hm
      · exfalso
        have h0 := hsk.2.2 s.threadId
        have h1 := tick_mem_numTicksFor s _ hm
        omega
      · exact ihh.2 s (by simpa [List.append_eq] using hm) hrss

/-- C3 is false as stated: a pass over a single eligible thread
(profiling-enabled, not pending delete) with the memory feature enabled and
a non-zero resident value records zero samples carrying the resident-memory
metric, not exactly one, because the suspend call for that thread fails. -/
theorem memory_metric_counterexample :
    c3Thread.info.hasProfile = true ∧
    c3Thread.info.isPendingDelete = false ∧
    ¬ numMemTicks (sampleLoop true 5 Arch.amd64 0 [c3Thread] true) = 1 := by
  decide

/-- C3 amended: per pass, when the memory feature is disabled no recorded
sample carries a non-zero rssMemory metric, and when it is enabled at most
one does.  Whenever the pass has a first non-skipped thread, the pass
records exactly one memory-carrying sample if the handle, the suspend and
the register-context read of that thread all succeed and the
resident-memory reading is non-zero, and records zero memory-carrying
samples otherwise; moreover every memory-carrying sample of the pass bears
the id of that first non-skipped thread. -/
theorem memory_metric_amended (rf : Nat) (arch : Arch) (stt : Nat)
    (ts : List ThreadCase) :
    numMemTicks (sampleLoop false rf arch stt ts true) = 0 ∧
    numMemTicks (sampleLoop true rf arch stt ts true) ≤ 1 ∧
    (∀ pre t post, ts = pre ++ t :: post →
      (∀ u ∈ pre, skippedNoSample u = true) →
      skippedNoSample t = false →
      (numMemTicks (sampleLoop true rf arch stt ts true) =
        if fullySampled t = true ∧ 0 < rf then 1 else 0) ∧
      (∀ s, Event.tick s ∈ sampleLoop true rf arch stt ts true →
        s.rssMemory ≠ 0 → s.threadId = t.info.threadId)) := by
  refine ⟨sampleLoop_memTicks_fmFalse rf arch stt ts true,
    sampleLoop_memTicks_le_one true rf arch stt ts true, ?_⟩
  intro pre t post hts hpre hns
  rw [hts]
  exact sampleLoop_first_nonskipped rf arch stt pre t post hpre hns

/-- Witness for memory_metric_amended: a fully successful eligible thread
with the feature on and resident value 5 yields exactly one memory-carrying
sample, while an eligible thread whose suspend fails yields zero. -/
theorem memory_metric_amended_witness :
    numMemTicks (sampleLoop true 5 Arch.amd64 0 [c3GoodThread] true) = 1 ∧
    numMemTicks (sampleLoop true 5 Arch.amd64 0 [c3Thread] true) = 0 := by
  constructor
  · have h := ((memory_metric_amended 5 Arch.amd64 0 [c3GoodThread]).2.2 []
      c3GoodThread [] rfl (by simp) (by decide)).1
    rw [if_pos (⟨by decide, by decide⟩ :
      fullySampled c3GoodThread = true ∧ 0 < 5)] at h
    exact h
  · have h := ((memory_metric_amended 5 Arch.amd64 0 [c3Thread]).2.2 []
      c3Thread [] rfl (by simp) (by decide)).1
    rw [if_neg (by decide :
      ¬(fullySampled c3Thread = true ∧ 0 < 5))] at h
    exact h

/-- C4: for an eligible thread whose can-duplicate-due-to-sleep predicate
holds, a successful buffer duplicate call skips the thread for this pass
with no suspend and no resume, while a failed duplicate call falls through,
in the same pass, to full sampling: the responsiveness update followed by
SampleContext. -/
theorem duplicate_skip_or_fallthrough (fm : Bool) (rf : Nat) (arch : Arch)
    (stt : Nat) (t : ThreadCase) (b : Bool)
    (hp : t.info.hasProfile = true) (hd : t.info.isPendingDelete = false)
    (hcd : t.info.canDuplicateLastSampleDueToSleep = true) :
    (t.os.duplicateOk = true →
      sampleOne fm rf arch stt t b =
        ([Event.duplicateLastSample t.info.threadId stt true], b) ∧
      numSuspendsFor t.info.threadId (sampleOne fm rf arch stt t b).1 = 0 ∧
      numResumesFor t.info.threadId (sampleOne fm rf arch stt t b).1 = 0) ∧
    (t.os.duplicateOk = false →
      sampleOne fm rf arch stt t b =
        (Event.duplicateLastSample t.info.threadId stt false ::
         Event.updateThreadResponsiveness t.info.threadId ::
         SampleContext fm rf arch t.info t.os b, false)) := by
  constructor
  · intro ho
    simp [sampleOne, hp, hd, hcd, ho, numSuspendsFor, numResumesFor,
      isSuspendOkFor, isResumeFor]
  · intro ho
    simp [sampleOne, hp, hd, hcd, ho]

/-- Witness for duplicate_skip_or_fallthrough: a successful duplicate call
skips the thread with no suspend or resume. -/
theorem duplicate_skip_or_fallthrough_witness :
    sampleOne false 0 Arch.amd64 3 c4Thread true =
      ([Event.duplicateLastSample c4Thread.info.threadId 3 true], true) ∧
    numSuspendsFor c4Thread.info.threadId
      (sampleOne false 0 Arch.amd64 3 c4Thread true).1 = 0 ∧
    numResumesFor c4Thread.info.threadId
      (sampleOne false 0 Arch.amd64 3 c4Thread true).1 = 0 :=
  (duplicate_skip_or_fallthrough false 0 Arch.amd64 3 c4Thread true rfl rfl
    rfl).1 rfl

/-- A suspend-failed thread contributes no sample and no resume at all. -/
theorem sampleOne_suspendFail_noTickNoResume (fm : Bool) (rf : Nat)
    (arch : Arch) (stt : Nat) (t : ThreadCase) (b : Bool) (tid : Nat)
    (hns : skippedNoSample t = false) (hsf : t.os.suspendFails = true) :
    numTicksFor tid (sampleOne fm rf arch stt t b).1 = 0 ∧
    numResumesFor tid (sampleOne fm rf arch stt t b).1 = 0 := by
  cases hh : GetThreadHandle t.info.platformData <;>
    cases hp : t.info.hasProfile <;> cases hd : t.info.isPendingDelete <;>
    cases hcd : t.info.canDuplicateLastSampleDueToSleep <;>
    cases ho : t.os.duplicateOk <;>
    simp_all [skippedNoSample, sampleOne, SampleContext, numTicksFor,
      numResumesFor, isTickFor, isResumeFor]

/-- C5: when the suspend call fails for a non-skipped thread, that thread
contributes no sample and no resume call, and every later thread of the
pass whose own full path succeeds is still sampled in the same pass. -/
theorem suspend_failure_isolated (fm : Bool) (rf : Nat) (arch : Arch)
    (stt : Nat) (t : ThreadCase) (rest : List ThreadCase) (b : Bool)
    (hns : skippedNoSample t = false) (hsf : t.os.suspendFails = true)
    (u : ThreadCase) (hu : u ∈ rest) (hf : fullySampled u = true) :
    numTicksFor t.info.threadId (sampleOne fm rf arch stt t b).1 = 0 ∧
    numResumesFor t.info.threadId (sampleOne fm rf arch stt t b).1 = 0 ∧
    1 ≤ numTicksFor u.info.threadId
      (sampleLoop fm rf arch stt (t :: rest) b) := by
  obtain ⟨h1, h2⟩ := sampleOne_suspendFail_noTickNoResume fm rf arch stt t b
    t.info.threadId hns hsf
  refine ⟨h1, h2, ?_⟩
  have h3 := sampleLoop_fullySampled_mem fm rf arch stt rest
    ((sampleOne fm rf arch stt t b).2) u hu hf
  simp only [sampleLoop, numTicksFor_append]
  omega

/-- Witness for suspend_failure_isolated: with the first thread failing to
suspend, the second thread of the pass is still sampled. -/
theorem suspend_failure_isolated_witness :
    numTicksFor c5FailThread.info.threadId
      (sampleOne true 5 Arch.amd64 0 c5FailThread true).1 = 0 ∧
    numResumesFor c5FailThread.info.threadId
      (sampleOne true 5 Arch.amd64 0 c5FailThread true).1 = 0 ∧
    1 ≤ numTicksFor c5GoodThread.info.threadId
      (sampleLoop true 5 Arch.amd64 0 [c5FailThread, c5GoodThread] true) :=
  suspend_failure_isolated true 5 Arch.amd64 0 c5FailThread [c5GoodThread]
    true (by decide) (by decide) c5GoodThread (by simp) (by decide)

/-- C6: when the suspend call succeeds and the register-context read fails,
SampleContext issues the resume before returning and forwards no sample to
the buffer, and later threads of the pass whose own full path succeeds are
still processed and sampled. -/
theorem context_read_failure_resumes (fm : Bool) (rf : Nat) (arch : Arch)
    (info : ThreadInfo) (os : OsOutcome) (b : Bool) (v : Nat)
    (hv : GetThreadHandle info.platformData = some v)
    (hs : os.suspendFails = false) (hc : os.getContextFails = true) :
    SampleContext fm rf arch info os b =
      [Event.suspendOk info.threadId, Event.resume info.threadId] ∧
    numTicksFor info.threadId (SampleContext fm rf arch info os b) = 0 ∧
    (∀ (stt : Nat) (rest : List ThreadCase) (b2 : Bool) (u : ThreadCase),
      u ∈ rest → fullySampled u = true →
      1 ≤ numTicksFor u.info.threadId
        (sampleLoop fm rf arch stt (⟨info, os⟩ :: rest) b2)) := by
  refine ⟨by simp [SampleContext, hv, hs, hc],
    by simp [SampleContext, hv, hs, hc, numTicksFor, isTickFor], ?_⟩
  intro stt rest b2 u hu hf
  have h3 := sampleLoop_fullySampled_mem fm rf arch stt rest
    ((sampleOne fm rf arch stt ⟨info, os⟩ b2).2) u hu hf
  simp only [sampleLoop, numTicksFor_append]
  omega

/-- Witness for context_read_failure_resumes: the failing context read
leaves the trace suspend-then-resume with no sample. -/
theorem context_read_failure_resumes_witness :
    SampleContext true 5 Arch.amd64 c6Thread.info c6Thread.os true =
      [Event.suspendOk c6Thread.info.threadId,
       Event.resume c6Thread.info.threadId] :=
  (context_read_failure_resumes true 5 Arch.amd64 c6Thread.info c6Thread.os
    true 8 rfl rfl rfl).1

/-- A SampleContext call records no sample with a given id if every thread
carrying that id has a null handle. -/
theorem numTicksFor_sampleContext_null (fm : Bool) (rf : Nat) (arch : Arch)
    (info : ThreadInfo) (os : OsOutcome) (b : Bool) (tid : Nat)
    (h : info.threadId = tid → GetThreadHandle info.platformData = none) :
    numTicksFor tid (SampleContext fm rf arch info os b) = 0 := by
  by_cases heq : info.threadId = tid
  · simp [SampleContext, h heq, numTicksFor]
  · cases hh : GetThreadHandle info.platformData with
    | none => simp [SampleContext, hh, numTicksFor]
    | some v =>
      cases hs : os.suspendFails <;> cases hc : os.getContextFails <;>
        simp [SampleContext, hh, hs, hc, numTicksFor, isTickFor, heq]

/-- The loop body records no sample with a given id if every thread
carrying that id has a null handle. -/
theorem numTicksFor_sampleOne_null (fm : Bool) (rf : Nat) (arch : Arch)
    (stt : Nat) (t : ThreadCase) (b : Bool) (tid : Nat)
    (h : t.info.threadId = tid →
      GetThreadHandle t.info.platformData = none) :
    numTicksFor tid (sampleOne fm rf arch stt t b).1 = 0 := by
  have hsc := numTicksFor_sampleContext_null fm rf arch t.info t.os b tid h
  unfold sampleOne
  split
  · simp [numTicksFor]
  · split
    · split
      · simp [numTicksFor, isTickFor]
      · simpa [numTicksFor, isTickFor] using hsc
    · simpa [numTicksFor, isTickFor] using hsc

/-- The thread loop records no sample with a given id if every thread
carrying that id has a null handle. -/
theorem numTicksFor_sampleLoop_null (fm : Bool) (rf : Nat) (arch : Arch)
    (stt : Nat) (ts : List ThreadCase) (b : Bool) (tid : Nat)
    (h : ∀ t ∈ ts, t.info.threadId = tid →
      GetThreadHandle t.info.platformData = none) :
    numTicksFor tid (sampleLoop fm rf arch stt ts b) = 0 := by
  induction ts generalizing b with
  | nil => simp [sampleLoop, numTicksFor]
  | cons t ts ih =>
    simp [sampleLoop, numTicksFor_append,
      numTicksFor_sampleOne_null fm rf arch stt t b tid (h t (by simp)),
      ih _ (fun u hu => h u (by simp [hu]))]

/-- A pass body records no sample with a given id if every thread carrying
that id has a null handle. -/
theorem numTicksFor_passBody_null (arch : Arch) (p : PassInput) (tid : Nat)
    (h : ∀ t ∈ p.threads, t.info.threadId = tid →
      GetThreadHandle t.info.platformData = none) :
    numTicksFor tid (passBody arch p) = 0 := by
  have hl := numTicksFor_sampleLoop_null p.featureMemory p.residentFast arch
    p.startTime p.threads true tid h
  unfold passBody
  split <;> simp_all [numTicksFor, isTickFor]

/-- A full pass adds exactly the samples of its body. -/
theorem numTicksFor_fullPass (arch : Arch) (st : SamplerThread)
    (p : PassInput) (tid : Nat) :
    numTicksFor tid (fullPass arch st p) =
      numTicksFor tid (passBody arch p) := by
  simp [fullPass, numTicksFor, isTickFor, List.filter_append]

/-- Across every pass of a run, no sample is recorded for an id whose every
carrier has a null handle. -/
theorem numTicksFor_run_null (arch : Arch) (st : SamplerThread)
    (passes : List PassInput) (tid : Nat)
    (h : ∀ p ∈ passes, ∀ t ∈ p.threads, t.info.threadId = tid →
      GetThreadHandle t.info.platformData = none) :
    numTicksFor tid (SamplerThread.Run arch st passes) = 0 := by
  induction passes with
  | nil => simp [SamplerThread.Run, numTicksFor]
  | cons p rest ih =>
    rw [SamplerThread.Run]
    split
    · simp [numTicksFor, isTickFor]
    · rw [numTicksFor_append, numTicksFor_fullPass,
        numTicksFor_passBody_null arch p tid (h p (by simp)),
        ih (fun q hq => h q (by simp [hq]))]

/-- C9: on a thread whose handle acquisition failed, SampleContext is a
silent no-op — it issues no suspend, no context read, no buffer insertion —
and across all passes of a run in which every occurrence of that thread id
has the null handle, zero samples are recorded for it. -/
theorem null_handle_silent_noop (fm : Bool) (rf : Nat) (arch : Arch)
    (info : ThreadInfo) (os : OsOutcome) (b : Bool)
    (h : GetThreadHandle info.platformData = none) :
    SampleContext fm rf arch info os b = [] ∧
    (∀ (arch2 : Arch) (st : SamplerThread) (passes : List PassInput),
      (∀ p ∈ passes, ∀ t ∈ p.threads, t.info.threadId = info.threadId →
        GetThreadHandle t.info.platformData = none) →
      numTicksFor info.threadId (SamplerThread.Run arch2 st passes) = 0) := by
  constructor
  · simp [SampleContext, h]
  · intro arch2 st passes hall
    exact numTicksFor_run_null arch2 st passes info.threadId hall

/-- Witness for null_handle_silent_noop: the null-handled thread produces
an empty trace, and two full passes over it record zero samples for it. -/
theorem null_handle_silent_noop_witness :
    SampleContext true 5 Arch.amd64 c9Thread.info c9Thread.os true = [] ∧
    numTicksFor c9Thread.info.threadId
      (SamplerThread.Run Arch.amd64 ⟨1, 5⟩
        [⟨1, false, 0, true, 5, [c9Thread]⟩,
         ⟨1, false, 0, true, 5, [c9Thread]⟩]) = 0 :=
  ⟨(null_handle_silent_noop true 5 Arch.amd64 c9Thread.info c9Thread.os true
      rfl).1,
   (null_handle_silent_noop true 5 Arch.amd64 c9Thread.info c9Thread.os true
      rfl).2 Arch.amd64 ⟨1, 5⟩
     [⟨1, false, 0, true, 5, [c9Thread]⟩, ⟨1, false, 0, true, 5, [c9Thread]⟩]
     (by decide)⟩
